import Mathlib

/-!
Verification of the portal-pulse particle animation (src/src/main.js).

The core of the repository is a GLSL vertex shader implementing a
four-phase particle state machine (BURST, DRIFT, SUCK, HOLD), plus the
resize handler setView.  We embed the shader's arithmetic shallowly over
the real numbers: GLSL floats become reals, vec2 becomes a two-field
structure, and every GLSL helper (fract, clamp, mix, smoothstep, mod,
normalize, length) is translated by its defining formula.  GLSL division
is total real division (x / 0 = 0 in the embedding); divisor expressions
are additionally exposed as named definitions so that guard claims can
be stated about the divisors themselves.  GLSL pow is used in the source
only at nonnegative bases with exponents 3 and 6, where it agrees with
the monomial, so those occurrences are embedded as monomials.
-/

noncomputable section

namespace PortalPulse

/-- A GLSL vec2: a pair of real coordinates. -/
@[ext]
structure Vec2 where
  x : ℝ
  y : ℝ

instance : Add Vec2 := ⟨fun v w => ⟨v.x + w.x, v.y + w.y⟩⟩
instance : Sub Vec2 := ⟨fun v w => ⟨v.x - w.x, v.y - w.y⟩⟩
instance : Neg Vec2 := ⟨fun v => ⟨-v.x, -v.y⟩⟩

/-- GLSL vector-times-scalar product v * r (componentwise). -/
def Vec2.scale (v : Vec2) (r : ℝ) : Vec2 := ⟨v.x * r, v.y * r⟩

/-- GLSL length(v) = sqrt(v.x^2 + v.y^2). -/
def Vec2.length (v : Vec2) : ℝ := Real.sqrt (v.x ^ 2 + v.y ^ 2)

/-- GLSL normalize(v) = v / length(v) (componentwise division, total in ℝ). -/
def Vec2.normalize (v : Vec2) : Vec2 := ⟨v.x / v.length, v.y / v.length⟩

@[simp] theorem Vec2.add_x (v w : Vec2) : (v + w).x = v.x + w.x := rfl
@[simp] theorem Vec2.add_y (v w : Vec2) : (v + w).y = v.y + w.y := rfl
@[simp] theorem Vec2.sub_x (v w : Vec2) : (v - w).x = v.x - w.x := rfl
@[simp] theorem Vec2.sub_y (v w : Vec2) : (v - w).y = v.y - w.y := rfl
@[simp] theorem Vec2.scale_x (v : Vec2) (r : ℝ) : (v.scale r).x = v.x * r := rfl
@[simp] theorem Vec2.scale_y (v : Vec2) (r : ℝ) : (v.scale r).y = v.y * r := rfl

/-- GLSL fract(x) = x - floor(x). -/
def fract (x : ℝ) : ℝ := Int.fract x

/-- GLSL clamp(x, lo, hi) = min(max(x, lo), hi). -/
def gclamp (x lo hi : ℝ) : ℝ := min (max x lo) hi

/-- Shader helper clamp01(x) = clamp(x, 0.0, 1.0). -/
def clamp01 (x : ℝ) : ℝ := gclamp x 0 1

/-- GLSL mix(a, b, t) = a*(1-t) + b*t. -/
def glslMix (a b t : ℝ) : ℝ := a * (1 - t) + b * t

/-- Componentwise mix on vec2. -/
def mix2 (a b : Vec2) (t : ℝ) : Vec2 := ⟨glslMix a.x b.x t, glslMix a.y b.y t⟩

/-- GLSL mod(x, y) = x - y * floor(x / y). -/
def glslMod (x y : ℝ) : ℝ := x - y * ⌊x / y⌋

/-- GLSL smoothstep(e0, e1, x): clamp the linear ramp, then cubic Hermite. -/
def smoothstep (e0 e1 x : ℝ) : ℝ :=
  let t := clamp01 ((x - e0) / (e1 - e0))
  t * t * (3 - 2 * t)

/-- Shader helper smooth01(t) = t*t*(3 - 2*t). -/
def smooth01 (t : ℝ) : ℝ := t * t * (3 - 2 * t)

/-- Shader helper easeOutCubic(t) = 1 - pow(1-t, 3) (t is clamped to [0,1]
before every use, so pow agrees with the monomial). -/
def easeOutCubic (t : ℝ) : ℝ := 1 - (1 - t) ^ 3

/-- Shader helper easeInOutCubic. -/
def easeInOutCubic (t : ℝ) : ℝ :=
  if t < 0.5 then 4 * t * t * t else 1 - (-2 * t + 2) ^ 3 / 2

/-- Shader hash(n) = fract(sin(n) * 43758.5453123). -/
def hashf (n : ℝ) : ℝ := fract (Real.sin n * 43758.5453123)

/-- Shader wobble(p, t): a low-frequency 2D periodic field. -/
def wobble (p : Vec2) (t : ℝ) : Vec2 :=
  let k : ℝ := 2
  let n1 := Real.sin (p.y * k + t * 1.2) + Real.sin (p.x * k * 0.7 - t * 1.1)
  let n2 := Real.sin (p.x * k + t * 1.0) - Real.sin (p.y * k * 0.9 + t * 1.3)
  ⟨n1, n2⟩

/-- Shader bezier(a, b, c, d, t): cubic Bezier point. -/
def bezier (a b c d : Vec2) (t : ℝ) : Vec2 :=
  let s := 1 - t
  (((a.scale s).scale s).scale s) + (((b.scale 3).scale s).scale s).scale t +
    (((c.scale 3).scale s).scale t).scale t + (((d.scale t).scale t).scale t)

/-- The shader uniforms: global time, viewport-derived geometry, the phase
timings, and the feel parameters (source lines 103-122). -/
structure Uniforms where
  uTime : ℝ
  uRes : Vec2
  uLeft : Vec2
  uRight : Vec2
  uPortalR : ℝ
  uBurstT : ℝ
  uDriftT : ℝ
  uSuckT : ℝ
  uHoldT : ℝ
  uRate : ℝ
  uBand : ℝ
  uBurstRadius : ℝ
  uSuckWide : ℝ
  uDotGain : ℝ

/-- The per-particle vertex attributes (fixed random seeds). -/
structure Attrib where
  aSeed : ℝ
  aEnergy : ℝ
  aSize : ℝ
  aHueMix : ℝ

/-- The per-particle, per-frame outputs of the vertex shader main:
screen position p, opacity alpha and the size multiplier sizeMul. -/
@[ext]
structure VertexOut where
  position : Vec2
  alpha : ℝ
  sizeMul : ℝ

/-- cycle = uBurstT + uDriftT + uSuckT + uHoldT. -/
def cycleLen (u : Uniforms) : ℝ := u.uBurstT + u.uDriftT + u.uSuckT + u.uHoldT

/-- burstEnd = uBurstT. -/
def burstEnd (u : Uniforms) : ℝ := u.uBurstT

/-- driftEnd = uBurstT + uDriftT. -/
def driftEnd (u : Uniforms) : ℝ := u.uBurstT + u.uDriftT

/-- suckEnd = uBurstT + uDriftT + uSuckT. -/
def suckEnd (u : Uniforms) : ℝ := u.uBurstT + u.uDriftT + u.uSuckT

/-- ph = mod(uTime * uRate, cycle): the in-cycle phase time. -/
def phase (u : Uniforms) : ℝ := glslMod (u.uTime * u.uRate) (cycleLen u)

/-- ang = hash(aSeed*91.7) * 6.2831853: the particle's fixed angle. -/
def ang (a : Attrib) : ℝ := hashf (a.aSeed * 91.7) * 6.2831853

/-- dir = (cos ang, sin ang): the particle's fixed radial direction. -/
def dir (a : Attrib) : Vec2 := ⟨Real.cos (ang a), Real.sin (ang a)⟩

/-- rad0 = pow(hash(aSeed*37.3), 6.0) * (uPortalR * 0.035): the tiny
seed-derived spawn offset scaled by the portal radius. -/
def rad0 (u : Uniforms) (a : Attrib) : ℝ :=
  hashf (a.aSeed * 37.3) ^ 6 * (u.uPortalR * 0.035)

/-- packed = uLeft + dir * rad0: the spawn point near the left portal. -/
def packed (u : Uniforms) (a : Attrib) : Vec2 :=
  u.uLeft + (dir a).scale (rad0 u a)

/-- scatter = vec2(rx, ry) * (0.55 + 0.65*hash(aSeed*88.2)). -/
def scatter (a : Attrib) : Vec2 :=
  let rx := hashf (a.aSeed * 201.3) * 2 - 1
  let ry := hashf (a.aSeed * 413.7) * 2 - 1
  (Vec2.mk rx ry).scale (0.55 + 0.65 * hashf (a.aSeed * 88.2))

/-- The BURST branch (source lines 312-321): ease out along dir with a
growing scatter cloud; opacity 1, size multiplier left at its default 1. -/
def burstOut (u : Uniforms) (a : Attrib) (ph : ℝ) : VertexOut :=
  let t := clamp01 (ph / u.uBurstT)
  let e := easeOutCubic t
  let r := u.uBurstRadius * a.aEnergy * e
  let cloud := (scatter a).scale (0.10 + 0.55 * e)
  ⟨packed u a + (dir a).scale r + cloud, 1, 1⟩

/-- base = packed + dir * (uBurstRadius * aEnergy) + scatter * 0.65: the
burst-end cloud position shared by the DRIFT and SUCK branches. -/
def driftBase (u : Uniforms) (a : Attrib) : Vec2 :=
  packed u a + (dir a).scale (u.uBurstRadius * a.aEnergy) + (scatter a).scale 0.65

/-- The DRIFT branch (source lines 323-337): hold near the burst radius with
a wobble ramping in and the y coordinate eased toward the band. -/
def driftOut (u : Uniforms) (a : Attrib) (ph : ℝ) : VertexOut :=
  let t := clamp01 ((ph - burstEnd u) / u.uDriftT)
  let e := smooth01 t
  let base := driftBase u a
  let w := (wobble (base.scale 0.55) (u.uTime + a.aSeed * 10.0)).scale (0.28 * e)
  let p := base + w
  let p' := Vec2.mk p.x (glslMix p.y (gclamp p.y (-u.uBand) u.uBand) (0.22 * e))
  ⟨p', 1, 1⟩

/-- tS = clamp01((ph - driftEnd) / uSuckT): global suck progress. -/
def suckTS (u : Uniforms) (ph : ℝ) : ℝ := clamp01 ((ph - driftEnd u) / u.uSuckT)

/-- tBoundary = uTime - (ph - driftEnd) / max(1e-3, uRate): the global time
at the exact DRIFT to SUCK boundary (freezes the wobble for the start). -/
def tBoundary (u : Uniforms) (ph : ℝ) : ℝ :=
  u.uTime - (ph - driftEnd u) / max 1e-3 u.uRate

/-- delay = 0.05 + 0.55 * hash(aSeed*999.1): the staggered commit time. -/
def suckDelay (a : Attrib) : ℝ := 0.05 + 0.55 * hashf (a.aSeed * 999.1)

/-- local = clamp01((tS - delay) / max(1e-3, 1 - delay)): per-dot progress
after it commits. -/
def suckLocal (u : Uniforms) (a : Attrib) (ph : ℝ) : ℝ :=
  clamp01 ((suckTS u ph - suckDelay a) / max 1e-3 (1 - suckDelay a))

/-- start: the DRIFT endpoint recomputed at the boundary time (wobble
amplitude 0.28 and band mix 0.22 hard-coded at their DRIFT end values). -/
def suckStart (u : Uniforms) (a : Attrib) (ph : ℝ) : Vec2 :=
  let base := driftBase u a
  let w := (wobble (base.scale 0.55) (tBoundary u ph + a.aSeed * 10.0)).scale 0.28
  let s0 := base + w
  Vec2.mk s0.x (glslMix s0.y (gclamp s0.y (-u.uBand) u.uBand) 0.22)

/-- capture = start + normalize(toR) * (length(toR)*0.06) * uSuckWide * prePull:
the wide capture pre-pull toward the right portal. -/
def suckCapture (u : Uniforms) (a : Attrib) (ph : ℝ) : Vec2 :=
  let start := suckStart u a ph
  let toR := u.uRight - start
  let prePull := smooth01 (suckTS u ph)
  start + ((toR.normalize.scale (toR.length * 0.06)).scale u.uSuckWide).scale prePull

/-- The position of the SUCK branch after the Bezier blend and the
micro-spiral perturbation (source lines 374-403). -/
def suckPos (u : Uniforms) (a : Attrib) (ph : ℝ) : Vec2 :=
  let localP := suckLocal u a ph
  let e := easeInOutCubic localP
  let aP := suckCapture u a ph
  let dP := u.uRight
  let bend := hashf (a.aSeed * 321.7) * 2 - 1
  let bP := (aP + dP).scale 0.5 + Vec2.mk 0 (1.15 + 0.55 * bend)
  let cP := (aP + dP).scale 0.5 + Vec2.mk 0 (-1.05 - 0.45 * bend)
  let curvePos := bezier aP bP cP dP e
  let p1 := mix2 aP curvePos (smoothstep 0.0 0.08 localP)
  let spin := hashf (a.aSeed * 777.7) * 2 - 1
  let spiralIn := smoothstep 0.06 0.22 (suckTS u ph)
  let commitIn := smoothstep 0.02 0.20 localP
  let spiralOut := 1 - smoothstep 0.60 1.0 localP
  let spiralAmt := 0.22 * spiralIn * commitIn * spiralOut
  let radial := u.uRight - p1
  let tangent := Vec2.normalize ⟨-radial.y + 1e-4, radial.x + 1e-4⟩
  p1 + tangent.scale (spiralAmt * spin)

/-- The SUCK branch (source lines 339-417): staggered absorption with
early per-dot fade, proximity fade and anti-blob shrink. -/
def suckOut (u : Uniforms) (a : Attrib) (ph : ℝ) : VertexOut :=
  let localP := suckLocal u a ph
  let p := suckPos u a ph
  let distToPortal := (p - u.uRight).length
  let nearFade := smoothstep 0.70 0.08 distToPortal
  let alpha := (1 - smoothstep 0.35 0.80 localP) * (1 - 0.92 * nearFade)
  let shrink := glslMix 0.20 1.0 (smoothstep 0.18 0.85 distToPortal)
  ⟨p, alpha, shrink⟩

/-- The HOLD branch (source lines 419-423): pinned at the right portal,
invisible. -/
def holdOut (u : Uniforms) : VertexOut := ⟨u.uRight, 0, 0⟩

/-- The four phases of the particle state machine. -/
inductive PhaseName where
  | burst
  | drift
  | suck
  | hold
deriving DecidableEq

/-- Branch selection of the shader's if/else chain on ph. -/
def phaseBranch (u : Uniforms) : PhaseName :=
  let ph := phase u
  if ph < burstEnd u then PhaseName.burst
  else if ph < driftEnd u then PhaseName.drift
  else if ph < suckEnd u then PhaseName.suck
  else PhaseName.hold

/-- The vertex shader main (source lines 283-433) restricted to the
position/alpha/sizeMul outputs: the four-branch state machine on ph. -/
def vertexMain (u : Uniforms) (a : Attrib) : VertexOut :=
  let ph := phase u
  if ph < burstEnd u then burstOut u a ph
  else if ph < driftEnd u then driftOut u a ph
  else if ph < suckEnd u then suckOut u a ph
  else holdOut u

/-- The resize handler setView(w, h) (source lines 464-473): overwrites the
viewport-derived uniforms, leaving all other uniforms unchanged. -/
def setView (w h : ℝ) (s : Uniforms) : Uniforms :=
  { s with
    uRes := ⟨w, h⟩
    uLeft := ⟨-w * 0.38, 0⟩
    uRight := ⟨w * 0.38, 0⟩
    uPortalR := min h w * 0.22
    uBurstRadius := min 4.4 (max 3.2 (w * 0.18))
    uBand := max 2.6 (min 3.6 (h * 0.30)) }

/-- JS-side hash11(x) = fract(sin(x * 127.1) * 43758.5453123) used to build
the fixed particle attributes (source lines 210-213). -/
def hash11 (x : ℝ) : ℝ := fract (Real.sin (x * 127.1) * 43758.5453123)

/-- The fixed attributes of particle i (source lines 216-224). -/
def particleAttrib (i : ℕ) : Attrib :=
  { aSeed := hash11 (i * 12.9898)
    aEnergy := glslMix 0.85 1.15 (hash11 (i * 78.233))
    aSize := glslMix 7.0 18.0 (hash11 (i * 0.9182) ^ (0.55 : ℝ))
    aHueMix := hash11 (i * 5.123) }

/-- COUNT = 260 particles (source line 200). -/
def COUNT : ℕ := 260

/-- One rendered frame: the outputs of all COUNT particles at time t. -/
def frame (u : Uniforms) (t : ℝ) : List VertexOut :=
  (List.range COUNT).map fun i => vertexMain { u with uTime := t } (particleAttrib i)

/-- The frame sequence produced by feeding a time sequence to the engine. -/
def frameSeq (u : Uniforms) (ts : List ℝ) : List (List VertexOut) :=
  ts.map (frame u)

/-- Divisor of the BURST progress division ph / uBurstT (source line 314). -/
def burstProgressDivisor (u : Uniforms) : ℝ := u.uBurstT

/-- Divisor of the DRIFT progress division (ph - burstEnd) / uDriftT
(source line 325). -/
def driftProgressDivisor (u : Uniforms) : ℝ := u.uDriftT

/-- Divisor of the SUCK progress division (ph - driftEnd) / uSuckT
(source line 341). -/
def suckProgressDivisor (u : Uniforms) : ℝ := u.uSuckT

/-- Divisor of the boundary-time division: max(1e-3, uRate) (source line 344). -/
def rateDivisor (u : Uniforms) : ℝ := max 1e-3 u.uRate

/-- Divisor of the local-progress division: max(1e-3, 1 - delay)
(source line 350). -/
def localProgressDivisor (a : Attrib) : ℝ := max 1e-3 (1 - suckDelay a)

/-- A sample uniform configuration: the timing and feel defaults of source
lines 110-121 together with the viewport geometry of a 20 x 10 world view
(uLeft, uRight and uPortalR as computed on source lines 100-108). -/
def sampleU : Uniforms :=
  { uTime := 0
    uRes := ⟨20, 10⟩
    uLeft := ⟨-7.6, 0⟩
    uRight := ⟨7.6, 0⟩
    uPortalR := 2.2
    uBurstT := 0.75
    uDriftT := 1.10
    uSuckT := 4.20
    uHoldT := 0.45
    uRate := 1.00
    uBand := 3.0
    uBurstRadius := 3.8
    uSuckWide := 2.2
    uDotGain := 1.15 }

/-- A zero-seed attribute record (particle 0 in fact has aSeed = 0, since
hash11(0) = fract(sin 0 * 43758.5453123) = 0). -/
def zeroSeedA : Attrib := ⟨0, 1, 10, 0⟩

/-! ### Basic facts about the GLSL helpers -/

theorem hashf_nonneg (n : ℝ) : 0 ≤ hashf n := Int.fract_nonneg _

theorem hashf_lt_one (n : ℝ) : hashf n < 1 := Int.fract_lt_one _

theorem hashf_zero : hashf 0 = 0 := by
  simp [hashf, fract, Real.sin_zero]

theorem clamp01_nonneg (x : ℝ) : 0 ≤ clamp01 x :=
  le_min (le_max_right x 0) zero_le_one

theorem clamp01_le_one (x : ℝ) : clamp01 x ≤ 1 := min_le_right _ _

theorem clamp01_of_nonpos {x : ℝ} (h : x ≤ 0) : clamp01 x = 0 := by
  rw [clamp01, gclamp, max_eq_right h, min_eq_left zero_le_one]

theorem clamp01_of_one_le {x : ℝ} (h : 1 ≤ x) : clamp01 x = 1 := by
  rw [clamp01, gclamp, max_eq_left (zero_le_one.trans h), min_eq_right h]

theorem clamp01_zero : clamp01 0 = 0 := clamp01_of_nonpos le_rfl

theorem clamp01_one : clamp01 1 = 1 := clamp01_of_one_le le_rfl

theorem smoothstep_nonneg (e0 e1 x : ℝ) : 0 ≤ smoothstep e0 e1 x := by
  have h0 := clamp01_nonneg ((x - e0) / (e1 - e0))
  have h1 := clamp01_le_one ((x - e0) / (e1 - e0))
  rw [smoothstep]
  nlinarith

theorem smoothstep_le_one (e0 e1 x : ℝ) : smoothstep e0 e1 x ≤ 1 := by
  have h0 := clamp01_nonneg ((x - e0) / (e1 - e0))
  have h1 := clamp01_le_one ((x - e0) / (e1 - e0))
  rw [smoothstep]
  nlinarith [sq_nonneg (1 - clamp01 ((x - e0) / (e1 - e0)))]

/-- smoothstep with increasing edges is 0 at or below the lower edge. -/
theorem smoothstep_eq_zero {e0 e1 x : ℝ} (he : e0 < e1) (h : x ≤ e0) :
    smoothstep e0 e1 x = 0 := by
  have hq : (x - e0) / (e1 - e0) ≤ 0 :=
    div_nonpos_iff.mpr (Or.inr ⟨by linarith, by linarith⟩)
  rw [smoothstep]
  simp only [clamp01_of_nonpos hq]
  ring

/-- smoothstep with increasing edges is 1 at or above the upper edge. -/
theorem smoothstep_eq_one {e0 e1 x : ℝ} (he : e0 < e1) (h : e1 ≤ x) :
    smoothstep e0 e1 x = 1 := by
  have hq : 1 ≤ (x - e0) / (e1 - e0) :=
    (one_le_div (by linarith)).mpr (by linarith)
  rw [smoothstep]
  simp only [clamp01_of_one_le hq]
  ring

/-- smoothstep with reversed (decreasing) edges is 0 at or above the first
edge. -/
theorem smoothstep_rev_eq_zero {e0 e1 x : ℝ} (he : e1 < e0) (h : e0 ≤ x) :
    smoothstep e0 e1 x = 0 := by
  have hq : (x - e0) / (e1 - e0) ≤ 0 :=
    div_nonpos_iff.mpr (Or.inl ⟨by linarith, by linarith⟩)
  rw [smoothstep]
  simp only [clamp01_of_nonpos hq]
  ring

theorem smooth01_zero : smooth01 0 = 0 := by norm_num [smooth01]

theorem smooth01_one : smooth01 1 = 1 := by norm_num [smooth01]

theorem smooth01_mem {t : ℝ} (h0 : 0 ≤ t) (h1 : t ≤ 1) :
    0 ≤ smooth01 t ∧ smooth01 t ≤ 1 := by
  constructor
  · rw [smooth01]; nlinarith
  · rw [smooth01]; nlinarith [sq_nonneg (1 - t)]

theorem easeOutCubic_zero : easeOutCubic 0 = 0 := by norm_num [easeOutCubic]

theorem easeOutCubic_one : easeOutCubic 1 = 1 := by norm_num [easeOutCubic]

theorem easeInOutCubic_zero : easeInOutCubic 0 = 0 := by
  norm_num [easeInOutCubic]

theorem easeInOutCubic_one : easeInOutCubic 1 = 1 := by
  norm_num [easeInOutCubic]

theorem glslMix_zero (a b : ℝ) : glslMix a b 0 = a := by norm_num [glslMix]

theorem glslMix_one (a b : ℝ) : glslMix a b 1 = b := by norm_num [glslMix]

theorem mix2_zero (a b : Vec2) : mix2 a b 0 = a := by
  ext <;> simp [mix2, glslMix]

theorem mix2_one (a b : Vec2) : mix2 a b 1 = b := by
  ext <;> simp [mix2, glslMix]

theorem bezier_one (a b c d : Vec2) : bezier a b c d 1 = d := by
  ext <;> simp [bezier]

theorem bezier_zero (a b c d : Vec2) : bezier a b c d 0 = a := by
  ext <;> simp [bezier]

theorem Vec2.add_scale_zero_right (v w : Vec2) : v + w.scale 0 = v := by
  ext <;> simp

/-- The suck delay lies in [0.05, 0.6). -/
theorem suckDelay_mem (a : Attrib) :
    0.05 ≤ suckDelay a ∧ suckDelay a < 0.6 := by
  have h0 := hashf_nonneg (a.aSeed * 999.1)
  have h1 := hashf_lt_one (a.aSeed * 999.1)
  constructor <;> [skip; skip] <;> rw [suckDelay] <;> nlinarith

/-! ### GLSL mod facts -/

theorem glslMod_eq_mul_fract {x c : ℝ} (hc : c ≠ 0) :
    glslMod x c = c * Int.fract (x / c) := by
  rw [glslMod, Int.fract, mul_sub, mul_div_cancel₀ _ hc]

theorem glslMod_mem_Ico (x : ℝ) {c : ℝ} (hc : 0 < c) :
    glslMod x c ∈ Set.Ico 0 c := by
  rw [glslMod_eq_mul_fract hc.ne']
  constructor
  · exact mul_nonneg hc.le (Int.fract_nonneg _)
  · calc c * Int.fract (x / c) < c * 1 :=
        mul_lt_mul_of_pos_left (Int.fract_lt_one _) hc
    _ = c := mul_one c

theorem glslMod_eq_self {x c : ℝ} (h0 : 0 ≤ x) (h1 : x < c) :
    glslMod x c = x := by
  have hc : 0 < c := lt_of_le_of_lt h0 h1
  have hfl : ⌊x / c⌋ = 0 :=
    Int.floor_eq_zero_iff.mpr ⟨div_nonneg h0 hc.le, (div_lt_one hc).mpr h1⟩
  rw [glslMod, hfl]
  simp

theorem glslMod_zero_left (c : ℝ) : glslMod 0 c = 0 := by
  rw [glslMod]
  simp

/-! ### Vec2 length facts -/

theorem Vec2.length_nonneg (v : Vec2) : 0 ≤ v.length := Real.sqrt_nonneg _

theorem Vec2.length_mk_zero : (Vec2.mk 0 0).length = 0 := by
  simp [Vec2.length]

theorem Vec2.sub_self_length (v : Vec2) : (v - v).length = 0 := by
  simp [Vec2.length]

theorem Vec2.length_scale (v : Vec2) (r : ℝ) :
    (v.scale r).length = |r| * v.length := by
  rw [Vec2.length, Vec2.length, Vec2.scale]
  have h : (v.x * r) ^ 2 + (v.y * r) ^ 2 = r ^ 2 * (v.x ^ 2 + v.y ^ 2) := by
    ring
  rw [h, Real.sqrt_mul (sq_nonneg r), Real.sqrt_sq_eq_abs]

theorem Vec2.sq_length {v : Vec2} : v.length ^ 2 = v.x ^ 2 + v.y ^ 2 :=
  Real.sq_sqrt (by positivity)

/-- Cauchy-Schwarz for Vec2. -/
theorem Vec2.dot_le_length_mul (v w : Vec2) :
    v.x * w.x + v.y * w.y ≤ v.length * w.length := by
  have h2 : (v.x * w.x + v.y * w.y) ^ 2 ≤
      (v.x ^ 2 + v.y ^ 2) * (w.x ^ 2 + w.y ^ 2) := by
    nlinarith [sq_nonneg (v.x * w.y - v.y * w.x)]
  have h3 : v.length * w.length =
      Real.sqrt ((v.x ^ 2 + v.y ^ 2) * (w.x ^ 2 + w.y ^ 2)) :=
    (Real.sqrt_mul (by positivity) _).symm
  rw [h3]
  calc v.x * w.x + v.y * w.y ≤ |v.x * w.x + v.y * w.y| := le_abs_self _
    _ = Real.sqrt ((v.x * w.x + v.y * w.y) ^ 2) := (Real.sqrt_sq_eq_abs _).symm
    _ ≤ Real.sqrt ((v.x ^ 2 + v.y ^ 2) * (w.x ^ 2 + w.y ^ 2)) :=
        Real.sqrt_le_sqrt h2

/-- Triangle inequality for Vec2. -/
theorem Vec2.length_add_le (v w : Vec2) :
    (v + w).length ≤ v.length + w.length := by
  have hv := Vec2.length_nonneg v
  have hw := Vec2.length_nonneg w
  have hd := Vec2.dot_le_length_mul v w
  have hv2 := Vec2.sq_length (v := v)
  have hw2 := Vec2.sq_length (v := w)
  have key : (v.x + w.x) ^ 2 + (v.y + w.y) ^ 2 ≤ (v.length + w.length) ^ 2 := by
    nlinarith
  calc (v + w).length = Real.sqrt ((v.x + w.x) ^ 2 + (v.y + w.y) ^ 2) := rfl
    _ ≤ Real.sqrt ((v.length + w.length) ^ 2) := Real.sqrt_le_sqrt key
    _ = |v.length + w.length| := Real.sqrt_sq_eq_abs _
    _ = v.length + w.length := abs_of_nonneg (by linarith)

theorem dir_length (a : Attrib) : (dir a).length = 1 := by
  rw [dir, Vec2.length]
  simp only
  rw [show Real.cos (ang a) ^ 2 + Real.sin (ang a) ^ 2 =
      Real.sin (ang a) ^ 2 + Real.cos (ang a) ^ 2 by ring,
    Real.sin_sq_add_cos_sq, Real.sqrt_one]

/-! ### Values of the branch formulas at the phase boundaries

Each phase branch of the shader is a composition of elementary continuous
operations in ph, so its one-sided limit at a boundary of its phase
interval is the value of the branch formula evaluated at that boundary
time.  The following lemmas compute those values. -/

/-- At ph = burstEnd the BURST formula has reached the full burst radius
and the full 0.65 scatter cloud: exactly the shared drift base point. -/
theorem burstOut_at_burstEnd (u : Uniforms) (a : Attrib) (hB : u.uBurstT ≠ 0) :
    burstOut u a (burstEnd u) = ⟨driftBase u a, 1, 1⟩ := by
  simp only [burstOut, burstEnd, div_self hB, clamp01_one, easeOutCubic_one,
    driftBase, VertexOut.mk.injEq, and_true]
  ext <;> simp only [Vec2.add_x, Vec2.add_y, Vec2.scale_x, Vec2.scale_y] <;>
    ring

/-- At ph = burstEnd the DRIFT formula has zero wobble and zero band mix:
exactly the shared drift base point. -/
theorem driftOut_at_burstEnd (u : Uniforms) (a : Attrib) :
    driftOut u a (burstEnd u) = ⟨driftBase u a, 1, 1⟩ := by
  simp only [driftOut, sub_self, zero_div, clamp01_zero, smooth01_zero,
    mul_zero, Vec2.add_scale_zero_right, glslMix_zero]

/-- At ph = driftEnd the DRIFT formula has full wobble (amplitude 0.28) and
full band mix (0.22): exactly the SUCK branch's start point. -/
theorem driftOut_at_driftEnd (u : Uniforms) (a : Attrib) (hD : u.uDriftT ≠ 0) :
    driftOut u a (driftEnd u) = ⟨suckStart u a (driftEnd u), 1, 1⟩ := by
  have h1 : driftEnd u - burstEnd u = u.uDriftT := by
    rw [driftEnd, burstEnd]; ring
  have h2 : tBoundary u (driftEnd u) = u.uTime := by
    rw [tBoundary, sub_self, zero_div, sub_zero]
  simp only [driftOut, suckStart, h1, h2, div_self hD, clamp01_one,
    smooth01_one, mul_one]

theorem suckTS_at_driftEnd (u : Uniforms) : suckTS u (driftEnd u) = 0 := by
  rw [suckTS, sub_self, zero_div, clamp01_zero]

theorem suckLocal_at_driftEnd (u : Uniforms) (a : Attrib) :
    suckLocal u a (driftEnd u) = 0 := by
  have hd := suckDelay_mem a
  have hmax : (0 : ℝ) ≤ max 1e-3 (1 - suckDelay a) :=
    le_trans (by norm_num) (le_max_left _ _)
  rw [suckLocal, suckTS_at_driftEnd]
  exact clamp01_of_nonpos
    (div_nonpos_iff.mpr (Or.inr ⟨by linarith [hd.1], hmax⟩))

/-- At ph = driftEnd the capture pre-pull is inactive. -/
theorem suckCapture_at_driftEnd (u : Uniforms) (a : Attrib) :
    suckCapture u a (driftEnd u) = suckStart u a (driftEnd u) := by
  simp only [suckCapture, suckTS_at_driftEnd, smooth01_zero,
    Vec2.add_scale_zero_right]

/-- At ph = driftEnd the SUCK position is exactly the start point: the
Bezier blend and the micro-spiral are both still inactive. -/
theorem suckPos_at_driftEnd (u : Uniforms) (a : Attrib) :
    suckPos u a (driftEnd u) = suckStart u a (driftEnd u) := by
  have hs1 : smoothstep 0.0 0.08 (0 : ℝ) = 0 :=
    smoothstep_eq_zero (by norm_num) (by norm_num)
  have hs2 : smoothstep 0.06 0.22 (0 : ℝ) = 0 :=
    smoothstep_eq_zero (by norm_num) (by norm_num)
  simp only [suckPos, suckLocal_at_driftEnd, suckTS_at_driftEnd, hs1, hs2,
    mix2_zero, mul_zero, zero_mul, Vec2.add_scale_zero_right,
    suckCapture_at_driftEnd]

theorem suckOut_position (u : Uniforms) (a : Attrib) (ph : ℝ) :
    (suckOut u a ph).position = suckPos u a ph := rfl

theorem suckOut_alpha (u : Uniforms) (a : Attrib) (ph : ℝ) :
    (suckOut u a ph).alpha =
      (1 - smoothstep 0.35 0.80 (suckLocal u a ph)) *
        (1 - 0.92 * smoothstep 0.70 0.08 ((suckPos u a ph - u.uRight).length)) :=
  rfl

theorem suckOut_sizeMul (u : Uniforms) (a : Attrib) (ph : ℝ) :
    (suckOut u a ph).sizeMul =
      glslMix 0.20 1.0 (smoothstep 0.18 0.85 ((suckPos u a ph - u.uRight).length)) :=
  rfl

/-- At ph = driftEnd the SUCK opacity is still 1, provided the start point
is at least 0.70 world units from the right anchor (otherwise the
proximity fade already bites). -/
theorem suckOut_alpha_at_driftEnd (u : Uniforms) (a : Attrib)
    (h : 0.70 ≤ (suckStart u a (driftEnd u) - u.uRight).length) :
    (suckOut u a (driftEnd u)).alpha = 1 := by
  rw [suckOut_alpha, suckLocal_at_driftEnd, suckPos_at_driftEnd]
  rw [smoothstep_eq_zero (by norm_num : (0.35 : ℝ) < 0.80) (by norm_num)]
  rw [smoothstep_rev_eq_zero (by norm_num : (0.08 : ℝ) < 0.70) h]
  norm_num

/-- At ph = driftEnd the SUCK size multiplier is still 1, provided the
start point is at least 0.85 world units from the right anchor. -/
theorem suckOut_sizeMul_at_driftEnd (u : Uniforms) (a : Attrib)
    (h : 0.85 ≤ (suckStart u a (driftEnd u) - u.uRight).length) :
    (suckOut u a (driftEnd u)).sizeMul = 1 := by
  rw [suckOut_sizeMul, suckPos_at_driftEnd,
    smoothstep_eq_one (by norm_num : (0.18 : ℝ) < 0.85) h, glslMix_one]
  norm_num

theorem suckTS_at_suckEnd (u : Uniforms) (hS : u.uSuckT ≠ 0) :
    suckTS u (suckEnd u) = 1 := by
  have h1 : suckEnd u - driftEnd u = u.uSuckT := by
    rw [suckEnd, driftEnd]; ring
  rw [suckTS, h1, div_self hS, clamp01_one]

theorem suckLocal_at_suckEnd (u : Uniforms) (a : Attrib) (hS : u.uSuckT ≠ 0) :
    suckLocal u a (suckEnd u) = 1 := by
  have hd := suckDelay_mem a
  have hmax : max 1e-3 (1 - suckDelay a) = 1 - suckDelay a :=
    max_eq_right (by linarith [hd.2])
  rw [suckLocal, suckTS_at_suckEnd u hS, hmax, div_self (by linarith [hd.2])]
  exact clamp01_one

/-- At ph = suckEnd the SUCK position is exactly the right anchor: the
Bezier curve ends there and the micro-spiral has faded out. -/
theorem suckPos_at_suckEnd (u : Uniforms) (a : Attrib) (hS : u.uSuckT ≠ 0) :
    suckPos u a (suckEnd u) = u.uRight := by
  have hs1 : smoothstep 0.0 0.08 (1 : ℝ) = 1 :=
    smoothstep_eq_one (by norm_num) (by norm_num)
  have hs2 : smoothstep 0.60 1.0 (1 : ℝ) = 1 :=
    smoothstep_eq_one (by norm_num) (by norm_num)
  simp only [suckPos, suckLocal_at_suckEnd u a hS, easeInOutCubic_one, hs1,
    hs2, bezier_one, mix2_one, sub_self, mul_zero, zero_mul,
    Vec2.add_scale_zero_right]

/-- At ph = suckEnd the SUCK branch outputs the right anchor, opacity 0 and
size multiplier 0.20 (the shrink floor at zero distance). -/
theorem suckOut_at_suckEnd (u : Uniforms) (a : Attrib) (hS : u.uSuckT ≠ 0) :
    suckOut u a (suckEnd u) = ⟨u.uRight, 0, 0.20⟩ := by
  have hp := suckPos_at_suckEnd u a hS
  have hdist : (suckPos u a (suckEnd u) - u.uRight).length = 0 := by
    rw [hp, Vec2.sub_self_length]
  ext
  · rw [suckOut_position, hp]
  · rw [suckOut_position, hp]
  · rw [suckOut_alpha, suckLocal_at_suckEnd u a hS,
      smoothstep_eq_one (by norm_num : (0.35 : ℝ) < 0.80) (by norm_num),
      hdist]
    ring
  · rw [suckOut_sizeMul, hdist,
      smoothstep_eq_zero (by norm_num : (0.18 : ℝ) < 0.85) (by norm_num),
      glslMix_zero]

/-! ### Claim C1 -/

/-- Claim C1 (amended): each phase branch is a composition of elementary
continuous operations of ph, so one-sided limits at a boundary are the
branch formulas evaluated at the boundary time; the claim then becomes an
agreement of successive branch formulas at the shared boundary.  Position
agrees at all three boundaries (in particular the SUCK start position
equals the DRIFT formula's value at the DRIFT→SUCK boundary time), and so
do opacity and size at BURST→DRIFT and opacity at SUCK→HOLD; at
DRIFT→SUCK opacity and size agree provided the drift endpoint is at least
0.70 (resp. 0.85) world units from the right anchor, the ranges where the
proximity fade and shrink are inactive.  The original claim's assertion
that the size multiplier is also continuous at SUCK→HOLD is false: its
SUCK-side boundary value is the shrink floor 0.20 while HOLD sets 0 (see
the counterexample). -/
theorem c1_boundary_agreement (u : Uniforms) (a : Attrib)
    (hB : u.uBurstT ≠ 0) (hD : u.uDriftT ≠ 0) (hS : u.uSuckT ≠ 0) :
    burstOut u a (burstEnd u) = driftOut u a (burstEnd u)
    ∧ (driftOut u a (driftEnd u)).position = (suckOut u a (driftEnd u)).position
    ∧ (0.70 ≤ (suckStart u a (driftEnd u) - u.uRight).length →
        (driftOut u a (driftEnd u)).alpha = (suckOut u a (driftEnd u)).alpha)
    ∧ (0.85 ≤ (suckStart u a (driftEnd u) - u.uRight).length →
        (driftOut u a (driftEnd u)).sizeMul = (suckOut u a (driftEnd u)).sizeMul)
    ∧ (suckOut u a (suckEnd u)).position = (holdOut u).position
    ∧ (suckOut u a (suckEnd u)).alpha = (holdOut u).alpha := by
  refine ⟨?_, ?_, ?_, ?_, ?_, ?_⟩
  · rw [burstOut_at_burstEnd u a hB, driftOut_at_burstEnd]
  · rw [driftOut_at_driftEnd u a hD, suckOut_position, suckPos_at_driftEnd]
  · intro h
    rw [driftOut_at_driftEnd u a hD, suckOut_alpha_at_driftEnd u a h]
  · intro h
    rw [driftOut_at_driftEnd u a hD, suckOut_sizeMul_at_driftEnd u a h]
  · rw [suckOut_at_suckEnd u a hS, holdOut]
  · rw [suckOut_at_suckEnd u a hS, holdOut]

/-- Counterexample to claim C1 as stated: at the SUCK→HOLD boundary of the
sample configuration (an in-cycle phase boundary, not the cycle wrap) the
SUCK branch's size multiplier reaches its shrink floor 0.20, while the
HOLD branch outputs 0 — the size multiplier is discontinuous there. -/
theorem c1_sizeMul_jump_cex :
    (suckOut sampleU zeroSeedA (suckEnd sampleU)).sizeMul = 0.20
    ∧ (holdOut sampleU).sizeMul = 0
    ∧ (0.20 : ℝ) ≠ 0 := by
  refine ⟨?_, rfl, by norm_num⟩
  rw [suckOut_at_suckEnd sampleU zeroSeedA (by norm_num [sampleU])]

/-- Witness for C1 at the sample configuration and the zero-seed particle. -/
theorem c1_boundary_agreement_witness :
    sampleU.uBurstT ≠ 0 ∧ sampleU.uDriftT ≠ 0 ∧ sampleU.uSuckT ≠ 0 ∧
    (burstOut sampleU zeroSeedA (burstEnd sampleU) =
        driftOut sampleU zeroSeedA (burstEnd sampleU)
      ∧ (driftOut sampleU zeroSeedA (driftEnd sampleU)).position =
          (suckOut sampleU zeroSeedA (driftEnd sampleU)).position
      ∧ (0.70 ≤ (suckStart sampleU zeroSeedA (driftEnd sampleU) -
            sampleU.uRight).length →
          (driftOut sampleU zeroSeedA (driftEnd sampleU)).alpha =
            (suckOut sampleU zeroSeedA (driftEnd sampleU)).alpha)
      ∧ (0.85 ≤ (suckStart sampleU zeroSeedA (driftEnd sampleU) -
            sampleU.uRight).length →
          (driftOut sampleU zeroSeedA (driftEnd sampleU)).sizeMul =
            (suckOut sampleU zeroSeedA (driftEnd sampleU)).sizeMul)
      ∧ (suckOut sampleU zeroSeedA (suckEnd sampleU)).position =
          (holdOut sampleU).position
      ∧ (suckOut sampleU zeroSeedA (suckEnd sampleU)).alpha =
          (holdOut sampleU).alpha) :=
  ⟨by norm_num [sampleU], by norm_num [sampleU], by norm_num [sampleU],
    c1_boundary_agreement sampleU zeroSeedA (by norm_num [sampleU])
      (by norm_num [sampleU]) (by norm_num [sampleU])⟩

/-! ### Claim C2 -/

/-- A configuration with all three in-flight phase durations set to zero
(the timing uniforms are host-configurable). -/
def uZeroDur : Uniforms := { sampleU with uBurstT := 0, uDriftT := 0, uSuckT := 0 }

/-- Claim C2 (amended): only the rate divisor max(1e-3, uRate) and the
derived divisor max(1e-3, 1 - commitDelay) carry a minimum-epsilon clamp,
and are at least 1e-3 for every configuration and particle; the three
phase-duration divisions (BURST, DRIFT, SUCK progress) divide by the raw
configured duration with no clamp, and their divisors are nonzero only
under the invariant that the durations are positive. -/
theorem c2_divisor_guards (u : Uniforms) (a : Attrib)
    (hB : 0 < u.uBurstT) (hD : 0 < u.uDriftT) (hS : 0 < u.uSuckT) :
    1e-3 ≤ rateDivisor u ∧ 1e-3 ≤ localProgressDivisor a ∧
    burstProgressDivisor u ≠ 0 ∧ driftProgressDivisor u ≠ 0 ∧
    suckProgressDivisor u ≠ 0 :=
  ⟨le_max_left _ _, le_max_left _ _, ne_of_gt hB, ne_of_gt hD, ne_of_gt hS⟩

/-- Counterexample to claim C2 as stated: in the configuration with zero
durations, the BURST/DRIFT/SUCK progress divisors are exactly 0 — the
source clamps only the rate and local-progress divisors, so no positive
epsilon bounds the phase-duration divisors over all configurations, and a
zero-configured duration yields a division by zero. -/
theorem c2_unguarded_divisor_cex :
    burstProgressDivisor uZeroDur = 0 ∧ driftProgressDivisor uZeroDur = 0 ∧
    suckProgressDivisor uZeroDur = 0 ∧
    ¬ ∃ ε : ℝ, 0 < ε ∧ ∀ v : Uniforms, ε ≤ burstProgressDivisor v := by
  refine ⟨rfl, rfl, rfl, ?_⟩
  rintro ⟨ε, hε, hall⟩
  have h := hall uZeroDur
  rw [show burstProgressDivisor uZeroDur = 0 from rfl] at h
  linarith

/-- Witness for C2 at the sample configuration and the zero-seed particle. -/
theorem c2_divisor_guards_witness :
    0 < sampleU.uBurstT ∧ 0 < sampleU.uDriftT ∧ 0 < sampleU.uSuckT ∧
    (1e-3 ≤ rateDivisor sampleU ∧ 1e-3 ≤ localProgressDivisor zeroSeedA ∧
      burstProgressDivisor sampleU ≠ 0 ∧ driftProgressDivisor sampleU ≠ 0 ∧
      suckProgressDivisor sampleU ≠ 0) :=
  ⟨by norm_num [sampleU], by norm_num [sampleU], by norm_num [sampleU],
    c2_divisor_guards sampleU zeroSeedA (by norm_num [sampleU])
      (by norm_num [sampleU]) (by norm_num [sampleU])⟩

/-! ### Claim C3 -/

/-- The four half-open in-cycle intervals BURST, DRIFT, SUCK, HOLD. -/
def phaseIntervals (u : Uniforms) (i : Fin 4) : Set ℝ :=
  if i.val = 0 then Set.Ico 0 (burstEnd u)
  else if i.val = 1 then Set.Ico (burstEnd u) (driftEnd u)
  else if i.val = 2 then Set.Ico (driftEnd u) (suckEnd u)
  else Set.Ico (suckEnd u) (cycleLen u)

/-- With nonnegative durations the four phase intervals are pairwise
disjoint. -/
theorem phaseIntervals_unique (u : Uniforms)
    (_hB : 0 ≤ u.uBurstT) (hD : 0 ≤ u.uDriftT) (hS : 0 ≤ u.uSuckT)
    {x : ℝ} (i j : Fin 4)
    (hi : x ∈ phaseIntervals u i) (hj : x ∈ phaseIntervals u j) : i = j := by
  fin_cases i <;> fin_cases j <;>
    simp_all [phaseIntervals, Set.mem_Ico, burstEnd, driftEnd, suckEnd,
      cycleLen] <;>
    linarith

/-- Every point of [0, cycle) lies in one of the four phase intervals. -/
theorem phaseIntervals_cover (u : Uniforms) {x : ℝ}
    (hx0 : 0 ≤ x) (hxc : x < cycleLen u) :
    ∃ i : Fin 4, x ∈ phaseIntervals u i := by
  by_cases h1 : x < burstEnd u
  · exact ⟨0, by simp [phaseIntervals, Set.mem_Ico]; exact ⟨hx0, h1⟩⟩
  · by_cases h2 : x < driftEnd u
    · exact ⟨1, by
        simp [phaseIntervals, Set.mem_Ico]
        exact ⟨le_of_not_lt h1, h2⟩⟩
    · by_cases h3 : x < suckEnd u
      · exact ⟨2, by
          simp [phaseIntervals, Set.mem_Ico]
          exact ⟨le_of_not_lt h2, h3⟩⟩
      · exact ⟨3, by
          simp [phaseIntervals, Set.mem_Ico]
          exact ⟨le_of_not_lt h3, hxc⟩⟩

theorem phaseIntervals_zero_eq (u : Uniforms) :
    phaseIntervals u 0 = Set.Ico 0 (burstEnd u) := rfl

theorem phaseIntervals_one_eq (u : Uniforms) :
    phaseIntervals u 1 = Set.Ico (burstEnd u) (driftEnd u) := rfl

theorem phaseIntervals_two_eq (u : Uniforms) :
    phaseIntervals u 2 = Set.Ico (driftEnd u) (suckEnd u) := rfl

theorem phaseIntervals_three_eq (u : Uniforms) :
    phaseIntervals u 3 = Set.Ico (suckEnd u) (cycleLen u) := rfl

/-- Membership in each phase interval coincides with the if/else chain of
the shader selecting the corresponding branch. -/
theorem phaseBranch_iff_mem (u : Uniforms)
    (hB : 0 ≤ u.uBurstT) (hD : 0 ≤ u.uDriftT) (hS : 0 ≤ u.uSuckT)
    (hC : 0 < cycleLen u) :
    (phase u ∈ phaseIntervals u 0 ↔ phaseBranch u = PhaseName.burst)
    ∧ (phase u ∈ phaseIntervals u 1 ↔ phaseBranch u = PhaseName.drift)
    ∧ (phase u ∈ phaseIntervals u 2 ↔ phaseBranch u = PhaseName.suck)
    ∧ (phase u ∈ phaseIntervals u 3 ↔ phaseBranch u = PhaseName.hold) := by
  obtain ⟨hp0, hpc⟩ := glslMod_mem_Ico (u.uTime * u.uRate) hC
  have hp0' : (0 : ℝ) ≤ phase u := hp0
  have hpc' : phase u < cycleLen u := hpc
  have hbd : burstEnd u ≤ driftEnd u := by rw [burstEnd, driftEnd]; linarith
  have hds : driftEnd u ≤ suckEnd u := by rw [driftEnd, suckEnd]; linarith
  have h0b : (0 : ℝ) ≤ burstEnd u := hB
  rw [phaseIntervals_zero_eq, phaseIntervals_one_eq, phaseIntervals_two_eq,
    phaseIntervals_three_eq, Set.mem_Ico, Set.mem_Ico, Set.mem_Ico,
    Set.mem_Ico]
  rcases lt_or_le (phase u) (burstEnd u) with c1 | c1
  · have hbr : phaseBranch u = PhaseName.burst := by
      simp only [phaseBranch]
      rw [if_pos c1]
    refine ⟨iff_of_true ⟨hp0', c1⟩ hbr, ?_, ?_, ?_⟩ <;>
      refine iff_of_false (fun h => by linarith [h.1, h.2]) (by rw [hbr]; decide)
  · rcases lt_or_le (phase u) (driftEnd u) with c2 | c2
    · have hbr : phaseBranch u = PhaseName.drift := by
        simp only [phaseBranch]
        rw [if_neg (not_lt.mpr c1), if_pos c2]
      refine ⟨?_, iff_of_true ⟨c1, c2⟩ hbr, ?_, ?_⟩ <;>
        refine iff_of_false (fun h => by linarith [h.1, h.2]) (by rw [hbr]; decide)
    · rcases lt_or_le (phase u) (suckEnd u) with c3 | c3
      · have hbr : phaseBranch u = PhaseName.suck := by
          simp only [phaseBranch]
          rw [if_neg (not_lt.mpr c1), if_neg (not_lt.mpr c2), if_pos c3]
        refine ⟨?_, ?_, iff_of_true ⟨c2, c3⟩ hbr, ?_⟩ <;>
          refine iff_of_false (fun h => by linarith [h.1, h.2]) (by rw [hbr]; decide)
      · have hbr : phaseBranch u = PhaseName.hold := by
          simp only [phaseBranch]
          rw [if_neg (not_lt.mpr c1), if_neg (not_lt.mpr c2),
            if_neg (not_lt.mpr c3)]
        refine ⟨?_, ?_, ?_, iff_of_true ⟨c3, hpc'⟩ hbr⟩ <;>
          refine iff_of_false (fun h => by linarith [h.1, h.2]) (by rw [hbr]; decide)

/-- Claim C3 (confirmed): the four half-open intervals partition
[0, cycle) with no gaps or overlaps; the phase value mod(T, cycle) lies
in that range, hence in exactly one interval; and membership in each
interval coincides with the if/else chain selecting the corresponding
branch of the state machine. -/
theorem c3_phase_partition (u : Uniforms)
    (hB : 0 ≤ u.uBurstT) (hD : 0 ≤ u.uDriftT) (hS : 0 ≤ u.uSuckT)
    (hC : 0 < cycleLen u) :
    (∀ x ∈ Set.Ico (0 : ℝ) (cycleLen u), ∃! i : Fin 4, x ∈ phaseIntervals u i)
    ∧ phase u ∈ Set.Ico (0 : ℝ) (cycleLen u)
    ∧ (∃! i : Fin 4, phase u ∈ phaseIntervals u i)
    ∧ (phase u ∈ phaseIntervals u 0 ↔ phaseBranch u = PhaseName.burst)
    ∧ (phase u ∈ phaseIntervals u 1 ↔ phaseBranch u = PhaseName.drift)
    ∧ (phase u ∈ phaseIntervals u 2 ↔ phaseBranch u = PhaseName.suck)
    ∧ (phase u ∈ phaseIntervals u 3 ↔ phaseBranch u = PhaseName.hold) := by
  have hmem : phase u ∈ Set.Ico (0 : ℝ) (cycleLen u) :=
    glslMod_mem_Ico _ hC
  have hpart : ∀ x ∈ Set.Ico (0 : ℝ) (cycleLen u),
      ∃! i : Fin 4, x ∈ phaseIntervals u i := by
    rintro x ⟨hx0, hxc⟩
    obtain ⟨i, hi⟩ := phaseIntervals_cover u hx0 hxc
    exact ⟨i, hi, fun j hj => phaseIntervals_unique u hB hD hS j i hj hi⟩
  obtain ⟨hi0, hi1, hi2, hi3⟩ := phaseBranch_iff_mem u hB hD hS hC
  exact ⟨hpart, hmem, hpart _ hmem, hi0, hi1, hi2, hi3⟩

/-- Witness for C3 at the sample configuration. -/
theorem c3_phase_partition_witness :
    0 ≤ sampleU.uBurstT ∧ 0 ≤ sampleU.uDriftT ∧ 0 ≤ sampleU.uSuckT ∧
    0 < cycleLen sampleU ∧
    ((∀ x ∈ Set.Ico (0 : ℝ) (cycleLen sampleU),
        ∃! i : Fin 4, x ∈ phaseIntervals sampleU i)
      ∧ phase sampleU ∈ Set.Ico (0 : ℝ) (cycleLen sampleU)
      ∧ (∃! i : Fin 4, phase sampleU ∈ phaseIntervals sampleU i)
      ∧ (phase sampleU ∈ phaseIntervals sampleU 0 ↔
          phaseBranch sampleU = PhaseName.burst)
      ∧ (phase sampleU ∈ phaseIntervals sampleU 1 ↔
          phaseBranch sampleU = PhaseName.drift)
      ∧ (phase sampleU ∈ phaseIntervals sampleU 2 ↔
          phaseBranch sampleU = PhaseName.suck)
      ∧ (phase sampleU ∈ phaseIntervals sampleU 3 ↔
          phaseBranch sampleU = PhaseName.hold)) :=
  ⟨by norm_num [sampleU], by norm_num [sampleU], by norm_num [sampleU],
    by norm_num [cycleLen, sampleU],
    c3_phase_partition sampleU (by norm_num [sampleU]) (by norm_num [sampleU])
      (by norm_num [sampleU]) (by norm_num [cycleLen, sampleU])⟩

/-! ### Claim C4 -/

theorem burstOut_alpha (u : Uniforms) (a : Attrib) (ph : ℝ) :
    (burstOut u a ph).alpha = 1 := rfl

theorem burstOut_sizeMul (u : Uniforms) (a : Attrib) (ph : ℝ) :
    (burstOut u a ph).sizeMul = 1 := rfl

theorem driftOut_alpha (u : Uniforms) (a : Attrib) (ph : ℝ) :
    (driftOut u a ph).alpha = 1 := rfl

theorem driftOut_sizeMul (u : Uniforms) (a : Attrib) (ph : ℝ) :
    (driftOut u a ph).sizeMul = 1 := rfl

theorem suckOut_alpha_mem (u : Uniforms) (a : Attrib) (ph : ℝ) :
    0 ≤ (suckOut u a ph).alpha ∧ (suckOut u a ph).alpha ≤ 1 := by
  rw [suckOut_alpha]
  have h1 := smoothstep_nonneg 0.35 0.80 (suckLocal u a ph)
  have h2 := smoothstep_le_one 0.35 0.80 (suckLocal u a ph)
  have h3 := smoothstep_nonneg 0.70 0.08 ((suckPos u a ph - u.uRight).length)
  have h4 := smoothstep_le_one 0.70 0.08 ((suckPos u a ph - u.uRight).length)
  constructor <;> nlinarith

theorem suckOut_sizeMul_mem (u : Uniforms) (a : Attrib) (ph : ℝ) :
    0 ≤ (suckOut u a ph).sizeMul ∧ (suckOut u a ph).sizeMul ≤ 1 := by
  rw [suckOut_sizeMul, glslMix]
  have h1 := smoothstep_nonneg 0.18 0.85 ((suckPos u a ph - u.uRight).length)
  have h2 := smoothstep_le_one 0.18 0.85 ((suckPos u a ph - u.uRight).length)
  constructor <;> nlinarith

/-- Claim C4 (confirmed): in every phase branch the computed opacity and
the computed size multiplier lie in [0, 1], for every configuration and
particle. -/
theorem c4_output_bounds (u : Uniforms) (a : Attrib) :
    0 ≤ (vertexMain u a).alpha ∧ (vertexMain u a).alpha ≤ 1 ∧
    0 ≤ (vertexMain u a).sizeMul ∧ (vertexMain u a).sizeMul ≤ 1 := by
  simp only [vertexMain]
  split_ifs with h1 h2 h3
  · rw [burstOut_alpha, burstOut_sizeMul]
    norm_num
  · rw [driftOut_alpha, driftOut_sizeMul]
    norm_num
  · obtain ⟨a1, a2⟩ := suckOut_alpha_mem u a (phase u)
    obtain ⟨s1, s2⟩ := suckOut_sizeMul_mem u a (phase u)
    exact ⟨a1, a2, s1, s2⟩
  · rw [holdOut]
    norm_num

/-! ### Claim C5 -/

/-- Claim C5 (confirmed): the per-particle computation is a pure function
of its inputs: identical inputs (uniforms, attributes) give identical
outputs, and identical time sequences give identical frame sequences. -/
theorem c5_determinism (u u' : Uniforms) (a a' : Attrib) (ts ts' : List ℝ)
    (hu : u = u') (ha : a = a') (hts : ts = ts') :
    vertexMain u a = vertexMain u' a' ∧ frameSeq u ts = frameSeq u' ts' := by
  subst hu
  subst ha
  subst hts
  exact ⟨rfl, rfl⟩

/-- Witness for C5: two evaluations with the same inputs and the same
two-frame time sequence. -/
theorem c5_determinism_witness :
    sampleU = sampleU ∧ zeroSeedA = zeroSeedA ∧ ([0, 1] : List ℝ) = [0, 1] ∧
    (vertexMain sampleU zeroSeedA = vertexMain sampleU zeroSeedA ∧
      frameSeq sampleU [0, 1] = frameSeq sampleU [0, 1]) :=
  ⟨rfl, rfl, rfl,
    c5_determinism sampleU sampleU zeroSeedA zeroSeedA [0, 1] [0, 1] rfl rfl rfl⟩

/-! ### Claim C6 -/

theorem phase_at_zero (u : Uniforms) (ht : u.uTime = 0) : phase u = 0 := by
  rw [phase, ht, zero_mul, glslMod_zero_left]

/-- At ph = 0 the BURST formula sits at the spawn point plus a tenth of
the scatter offset (the cloud term starts at amplitude 0.10, not 0). -/
theorem burstOut_at_zero (u : Uniforms) (a : Attrib) :
    burstOut u a 0 =
      ⟨u.uLeft + (dir a).scale (rad0 u a) + (scatter a).scale 0.10, 1, 1⟩ := by
  simp only [burstOut, zero_div, clamp01_zero, easeOutCubic_zero, packed,
    VertexOut.mk.injEq, and_true]
  ext <;>
    simp only [Vec2.add_x, Vec2.add_y, Vec2.scale_x, Vec2.scale_y] <;>
    ring

theorem rad0_mem (u : Uniforms) (a : Attrib) (hP : 0 ≤ u.uPortalR) :
    0 ≤ rad0 u a ∧ rad0 u a ≤ 0.035 * u.uPortalR := by
  have h0 := hashf_nonneg (a.aSeed * 37.3)
  have h1 := hashf_lt_one (a.aSeed * 37.3)
  have hp6 : hashf (a.aSeed * 37.3) ^ 6 ≤ 1 := pow_le_one₀ h0 h1.le
  have hp6' : 0 ≤ hashf (a.aSeed * 37.3) ^ 6 := pow_nonneg h0 6
  rw [rad0]
  constructor <;> nlinarith

theorem sqrt_two_le : Real.sqrt 2 ≤ 1.4143 := by
  rw [show (1.4143 : ℝ) = Real.sqrt (1.4143 ^ 2) from
    (Real.sqrt_sq (by norm_num)).symm]
  apply Real.sqrt_le_sqrt
  norm_num

theorem scatter_length_le (a : Attrib) : (scatter a).length ≤ 1.2 * Real.sqrt 2 := by
  simp only [scatter]
  rw [Vec2.length_scale]
  have hm : |0.55 + 0.65 * hashf (a.aSeed * 88.2)| ≤ 1.2 := by
    rw [abs_of_nonneg (by nlinarith [hashf_nonneg (a.aSeed * 88.2)])]
    nlinarith [hashf_lt_one (a.aSeed * 88.2)]
  have hv : (Vec2.mk (hashf (a.aSeed * 201.3) * 2 - 1)
      (hashf (a.aSeed * 413.7) * 2 - 1)).length ≤ Real.sqrt 2 := by
    rw [Vec2.length]
    apply Real.sqrt_le_sqrt
    have h1 := hashf_nonneg (a.aSeed * 201.3)
    have h2 := hashf_lt_one (a.aSeed * 201.3)
    have h3 := hashf_nonneg (a.aSeed * 413.7)
    have h4 := hashf_lt_one (a.aSeed * 413.7)
    simp only
    nlinarith
  calc |0.55 + 0.65 * hashf (a.aSeed * 88.2)| *
      (Vec2.mk (hashf (a.aSeed * 201.3) * 2 - 1)
        (hashf (a.aSeed * 413.7) * 2 - 1)).length
      ≤ 1.2 * Real.sqrt 2 :=
        mul_le_mul hm hv (Vec2.length_nonneg _) (by norm_num)

/-- Claim C6 (amended): at globalTime 0 every particle is in the BURST
branch with opacity 1, and its position is exactly
leftAnchor + dir*rad0 + 0.10*scatter; its distance from the left anchor is
bounded by 0.035*portalRadius + 0.17 (the maximal spawn offset plus a
tenth of the maximal scatter amplitude 1.2*sqrt 2).  The scatter term is
not scaled by the portal radius, so the original "within the seed-derived
spawn offset scaled by portalRadius" bound fails (see the
counterexample). -/
theorem c6_spawn (u : Uniforms) (a : Attrib)
    (hB : 0 < u.uBurstT) (hP : 0 ≤ u.uPortalR) (ht : u.uTime = 0) :
    phaseBranch u = PhaseName.burst
    ∧ (vertexMain u a).alpha = 1
    ∧ (vertexMain u a).position =
        u.uLeft + (dir a).scale (rad0 u a) + (scatter a).scale 0.10
    ∧ ((vertexMain u a).position - u.uLeft).length ≤
        0.035 * u.uPortalR + 0.17 := by
  have hph : phase u = 0 := phase_at_zero u ht
  have hlt : phase u < burstEnd u := by
    rw [hph, burstEnd]
    exact hB
  have hbr : phaseBranch u = PhaseName.burst := by
    simp only [phaseBranch]
    rw [if_pos hlt]
  have hvm : vertexMain u a = burstOut u a 0 := by
    simp only [vertexMain]
    rw [if_pos hlt, hph]
  rw [hvm, burstOut_at_zero]
  refine ⟨hbr, rfl, rfl, ?_⟩
  have hshift :
      (u.uLeft + (dir a).scale (rad0 u a) + (scatter a).scale 0.10 - u.uLeft)
        = (dir a).scale (rad0 u a) + (scatter a).scale 0.10 := by
    ext <;>
      simp only [Vec2.add_x, Vec2.add_y, Vec2.sub_x, Vec2.sub_y,
        Vec2.scale_x, Vec2.scale_y] <;>
      ring
  have hr := rad0_mem u a hP
  have hsl := scatter_length_le a
  have hs2 := sqrt_two_le
  calc ((u.uLeft + (dir a).scale (rad0 u a) + (scatter a).scale 0.10 -
        u.uLeft)).length
      = ((dir a).scale (rad0 u a) + (scatter a).scale 0.10).length := by
        rw [hshift]
    _ ≤ ((dir a).scale (rad0 u a)).length + ((scatter a).scale 0.10).length :=
        Vec2.length_add_le _ _
    _ = |rad0 u a| * 1 + |(0.10 : ℝ)| * (scatter a).length := by
        rw [Vec2.length_scale, Vec2.length_scale, dir_length]
    _ ≤ 0.035 * u.uPortalR + 0.17 := by
        rw [abs_of_nonneg hr.1, abs_of_nonneg (by norm_num : (0 : ℝ) ≤ 0.10)]
        nlinarith [Vec2.length_nonneg (scatter a)]

/-- The configuration of a square 1 x 1 world viewport: portalRadius is
0.22 while the spawn-scatter term is independent of it. -/
def u6 : Uniforms := { sampleU with uPortalR := 0.22 }

/-- Counterexample to claim C6 as stated: for the zero-seed particle (the
pool's particle 0) at globalTime 0, the spawn offset rad0 is exactly 0,
yet the reported position is 0.055*sqrt 2 away from the left anchor — far
beyond the claimed tolerance (even beyond the maximal spawn offset
0.035 * portalRadius). -/
theorem c6_spawn_cex :
    phaseBranch u6 = PhaseName.burst
    ∧ rad0 u6 zeroSeedA = 0
    ∧ 0.035 * u6.uPortalR <
        ((vertexMain u6 zeroSeedA).position - u6.uLeft).length
    ∧ ¬ ((vertexMain u6 zeroSeedA).position - u6.uLeft).length ≤
        rad0 u6 zeroSeedA := by
  have hrad : rad0 u6 zeroSeedA = 0 := by
    simp [rad0, zeroSeedA, hashf_zero]
  have hph : phase u6 = 0 := phase_at_zero u6 rfl
  have hlt : phase u6 < burstEnd u6 := by
    rw [hph]
    norm_num [burstEnd, u6, sampleU]
  have hbr : phaseBranch u6 = PhaseName.burst := by
    simp only [phaseBranch]
    rw [if_pos hlt]
  have hvm : vertexMain u6 zeroSeedA = burstOut u6 zeroSeedA 0 := by
    simp only [vertexMain]
    rw [if_pos hlt, hph]
  have hsc : scatter zeroSeedA = Vec2.mk (-0.55) (-0.55) := by
    simp only [scatter, zeroSeedA, zero_mul, hashf_zero]
    ext <;> norm_num
  have hpos : (vertexMain u6 zeroSeedA).position - u6.uLeft =
      Vec2.mk (-0.055) (-0.055) := by
    rw [hvm, burstOut_at_zero, hrad, hsc]
    ext <;>
      simp only [Vec2.add_x, Vec2.add_y, Vec2.sub_x, Vec2.sub_y,
        Vec2.scale_x, Vec2.scale_y] <;>
      norm_num
  have hlen : ((vertexMain u6 zeroSeedA).position - u6.uLeft).length =
      Real.sqrt 0.00605 := by
    rw [hpos, Vec2.length]
    norm_num
  have hgt : (0.0077 : ℝ) < Real.sqrt 0.00605 := by
    rw [Real.lt_sqrt (by norm_num)]
    norm_num
  refine ⟨hbr, hrad, ?_, ?_⟩
  · rw [hlen]
    calc (0.035 : ℝ) * u6.uPortalR = 0.0077 := by norm_num [u6, sampleU]
      _ < Real.sqrt 0.00605 := hgt
  · rw [hlen, hrad]
    intro h
    linarith

/-- Witness for C6 at the sample configuration and the zero-seed particle. -/
theorem c6_spawn_witness :
    0 < sampleU.uBurstT ∧ 0 ≤ sampleU.uPortalR ∧ sampleU.uTime = 0 ∧
    (phaseBranch sampleU = PhaseName.burst
      ∧ (vertexMain sampleU zeroSeedA).alpha = 1
      ∧ (vertexMain sampleU zeroSeedA).position =
          sampleU.uLeft + (dir zeroSeedA).scale (rad0 sampleU zeroSeedA) +
            (scatter zeroSeedA).scale 0.10
      ∧ ((vertexMain sampleU zeroSeedA).position - sampleU.uLeft).length ≤
          0.035 * sampleU.uPortalR + 0.17) :=
  ⟨by norm_num [sampleU], by norm_num [sampleU], rfl,
    c6_spawn sampleU zeroSeedA (by norm_num [sampleU]) (by norm_num [sampleU])
      rfl⟩

/-! ### Claim C7 -/

/-- Claim C7 (confirmed): at globalTime
burstDuration + driftDuration + suckDuration + holdDuration*0.5 with rate
1, every particle is in the HOLD branch and outputs exactly the right
anchor, opacity 0 and size multiplier 0. -/
theorem c7_mid_hold (u : Uniforms) (a : Attrib)
    (hrate : u.uRate = 1)
    (hB : 0 ≤ u.uBurstT) (hD : 0 ≤ u.uDriftT) (hS : 0 ≤ u.uSuckT)
    (hH : 0 < u.uHoldT)
    (ht : u.uTime = u.uBurstT + u.uDriftT + u.uSuckT + u.uHoldT * 0.5) :
    vertexMain u a = ⟨u.uRight, 0, 0⟩ := by
  have hph : phase u = u.uTime := by
    rw [phase, hrate, mul_one]
    exact glslMod_eq_self (by rw [ht]; linarith)
      (by rw [cycleLen, ht]; linarith)
  have h1 : ¬ (phase u < burstEnd u) :=
    not_lt.mpr (by rw [hph, ht, burstEnd]; linarith)
  have h2 : ¬ (phase u < driftEnd u) :=
    not_lt.mpr (by rw [hph, ht, driftEnd]; linarith)
  have h3 : ¬ (phase u < suckEnd u) :=
    not_lt.mpr (by rw [hph, ht, suckEnd]; linarith)
  simp only [vertexMain]
  rw [if_neg h1, if_neg h2, if_neg h3, holdOut]

/-- The sample configuration at the mid-HOLD time 6.275 =
0.75 + 1.10 + 4.20 + 0.45*0.5. -/
def u7 : Uniforms := { sampleU with uTime := 6.275 }

/-- Witness for C7 at the sample configuration. -/
theorem c7_mid_hold_witness :
    u7.uRate = 1 ∧ 0 ≤ u7.uBurstT ∧ 0 ≤ u7.uDriftT ∧ 0 ≤ u7.uSuckT ∧
    0 < u7.uHoldT ∧
    u7.uTime = u7.uBurstT + u7.uDriftT + u7.uSuckT + u7.uHoldT * 0.5 ∧
    vertexMain u7 zeroSeedA = ⟨u7.uRight, 0, 0⟩ :=
  ⟨by norm_num [u7, sampleU], by norm_num [u7, sampleU],
    by norm_num [u7, sampleU], by norm_num [u7, sampleU],
    by norm_num [u7, sampleU], by norm_num [u7, sampleU],
    c7_mid_hold u7 zeroSeedA (by norm_num [u7, sampleU])
      (by norm_num [u7, sampleU]) (by norm_num [u7, sampleU])
      (by norm_num [u7, sampleU]) (by norm_num [u7, sampleU])
      (by norm_num [u7, sampleU])⟩

/-! ### Claims C8, C9, C10 -/

/-- Claim C8 (confirmed): the resize handler is idempotent: a second
setView call with the same width and height leaves the whole uniform
state — in particular the resolution, the anchors, the portal radius, the
burst radius and the band width — exactly as after the first call. -/
theorem c8_setView_idempotent (w h : ℝ) (s : Uniforms) :
    setView w h (setView w h s) = setView w h s := rfl

/-- Claim C9 (confirmed): after any resize the anchors sit at ±38% of the
width with y = 0 and the portal radius is min(width, height)*0.22; in
particular, after resizing from (800, 600) to (1600, 1200) the left anchor
x is -0.38*1600 and the portal radius is min(1600, 1200)*0.22. -/
theorem c9_setView_geometry (w h : ℝ) (s : Uniforms) :
    (setView w h s).uLeft = Vec2.mk (-(0.38 * w)) 0
    ∧ (setView w h s).uRight = Vec2.mk (0.38 * w) 0
    ∧ (setView w h s).uPortalR = min w h * 0.22
    ∧ (setView 1600 1200 (setView 800 600 s)).uLeft.x = -(0.38 * 1600)
    ∧ (setView 1600 1200 (setView 800 600 s)).uPortalR =
        min 1600 1200 * 0.22 := by
  refine ⟨?_, ?_, ?_, ?_, ?_⟩
  · show Vec2.mk (-w * 0.38) 0 = Vec2.mk (-(0.38 * w)) 0
    rw [Vec2.mk.injEq]
    exact ⟨by ring, rfl⟩
  · show Vec2.mk (w * 0.38) 0 = Vec2.mk (0.38 * w) 0
    rw [Vec2.mk.injEq]
    exact ⟨by ring, rfl⟩
  · show min h w * 0.22 = min w h * 0.22
    rw [min_comm]
  · show -(1600 : ℝ) * 0.38 = -(0.38 * 1600)
    ring
  · show min (1200 : ℝ) 1600 * 0.22 = min 1600 1200 * 0.22
    rw [min_comm]

/-- Claim C10 (confirmed): every setView call overwrites the burst radius
with min(4.4, max(3.2, w*0.18)) and the band with
max(2.6, min(3.6, h*0.30)), which lie in [3.2, 4.4] and [2.6, 3.6]
respectively, for every width, height and prior state. -/
theorem c10_setView_feel_clamps (w h : ℝ) (s : Uniforms) :
    (setView w h s).uBurstRadius = min 4.4 (max 3.2 (w * 0.18))
    ∧ 3.2 ≤ (setView w h s).uBurstRadius
    ∧ (setView w h s).uBurstRadius ≤ 4.4
    ∧ (setView w h s).uBand = max 2.6 (min 3.6 (h * 0.30))
    ∧ 2.6 ≤ (setView w h s).uBand
    ∧ (setView w h s).uBand ≤ 3.6 := by
  refine ⟨rfl, ?_, ?_, rfl, ?_, ?_⟩
  · exact le_min (by norm_num) (le_max_left _ _)
  · exact min_le_left _ _
  · exact le_max_left _ _
  · exact max_le (by norm_num) (min_le_left _ _)

end PortalPulse
